import Mathlib

/-!
Verification development for `wayland_helper.c`, the helper process that
brokers between a rendering client (JVM) and a Wayland compositor using
`zwlr_layer_shell_v1`.

The definitions below are a shallow embedding of the C source:

* machine integers are modelled as `Int`/`Nat` with explicit reduction
  modulo `2^32` where C performs 32-bit (wrapping) arithmetic;
* the process-global `struct state` becomes the structure `HState`;
* messages written to the control socket become values of `OutMsg`
  appended to an output list (a `send` models the *attempt* to send);
* Wayland callback objects created by `wl_surface_frame` and destroyed by
  `wl_callback_destroy` are counted by the field `liveCallbacks`;
* external collaborators (the compositor, `open`, `mmap`, xkbcommon) are
  modelled by explicit result parameters (`ConfigEnv`, `XkbM`, ...).
-/

namespace WaylandHelper

/-- Header magic constant `0x56495244` ("VIRD"), `wayland_helper.c` line 45. -/
def MAGIC : Nat := 0x56495244

/-- IPC message type tag for CONFIGURE (client to helper). -/
def MSG_CONFIGURE : Nat := 0x01

/-- IPC message type tag for FRAME_READY (client to helper). -/
def MSG_FRAME_READY : Nat := 0x03

/-- IPC message type tag for SHUTDOWN (client to helper). -/
def MSG_SHUTDOWN : Nat := 0x08

/-- Interpretation of a natural number as a C `int32_t` value (two's
complement): reduce modulo `2^32` and read the result as a signed 32-bit
integer. Models C casts such as `(int32_t)width`. -/
def asInt32 (n : Nat) : Int :=
  if n % 2 ^ 32 < 2 ^ 31 then ((n % 2 ^ 32 : Nat) : Int)
  else ((n % 2 ^ 32 : Nat) : Int) - 2 ^ 32

/-- The `uint32_t` image of a C `int32_t` value (two's complement bit
pattern). Models C casts such as `(uint32_t)cfg.anchor`. -/
def u32 (i : Int) : Nat := (i % (2 ^ 32 : Int)).toNat

/-- Messages the helper sends to the client over the control socket.
`keyEvent`/`ptrEvent` carry their payload as the list of 32-bit words in
buffer order. -/
inductive OutMsg
  | cfgAck (w h : Int)
  | frameDone (seq : Int)
  | resizeMsg (w h : Int)
  | errorMsg (code : Int) (text : String)
  | keyEvent (payload : List Int)
  | ptrEvent (payload : List Int)
deriving DecidableEq, Repr

/-- The helper's global `struct state` (source lines 76-136), restricted to
the fields the claims are about.  `liveCallbacks` counts currently existing
`wl_callback` objects (created by `wl_surface_frame`, destroyed by
`wl_callback_destroy`); it is not a C variable but makes the callback
lifetime explicit.  `alive` models `state.running` combined with the event
loop breaking on a fatal dispatch result. -/
structure HState where
  width : Int
  height : Int
  configured : Bool
  frame_callback_pending : Bool
  resize_pending : Bool
  pending_width : Int
  pending_height : Int
  pending_serial : Nat
  configure_serial : Nat
  frame_seq : Int
  shm_fd : Int
  liveCallbacks : Nat
  alive : Bool
deriving DecidableEq, Repr

/-- The state at the top of the event loop on startup: the global struct is
zero-initialised, and `main` (line 757) has set `shm_fd = -1` before any
cleanup path can run. -/
def init : HState :=
  { width := 0, height := 0, configured := false, frame_callback_pending := false
  , resize_pending := false, pending_width := 0, pending_height := 0
  , pending_serial := 0, configure_serial := 0, frame_seq := 0
  , shm_fd := -1, liveCallbacks := 0, alive := true }

/-- Source lines 180-184: create a `wl_callback` via `wl_surface_frame`,
add the listener, and set the pending flag.  Note the source does not check
whether a callback is already pending. -/
def register_frame_callback (s : HState) : HState :=
  { s with liveCallbacks := s.liveCallbacks + 1, frame_callback_pending := true }

/-- Source lines 186-195: the frame-callback `done` handler.  It destroys
the callback object, clears the pending flag and sends one FRAME_DONE
carrying `state.frame_seq`. -/
def frame_callback_done (s : HState) : HState × List OutMsg :=
  ({ s with liveCallbacks := s.liveCallbacks - 1, frame_callback_pending := false },
   [OutMsg.frameDone s.frame_seq])

/-- Source lines 216-217: per-axis replacement of a zero compositor size by
the current session dimension (`(width > 0) ? (int32_t)width : state.width`). -/
def configure_new_dims (s : HState) (w h : Nat) : Int × Int :=
  (if 0 < w then asInt32 w else s.width, if 0 < h then asInt32 h else s.height)

/-- Source lines 210-241: the `zwlr_layer_surface_v1.configure` handler.
Initial configure records the dimensions and serial; a later configure with
different dimensions queues a resize; a same-size configure just acks and
commits (no client IPC, no state change in this model). -/
def layer_surface_configure (s : HState) (serial w h : Nat) : HState × List OutMsg :=
  let nw := (configure_new_dims s w h).1
  let nh := (configure_new_dims s w h).2
  if s.configured = false then
    ({ s with width := nw, height := nh, configure_serial := serial, configured := true }, [])
  else if nw ≠ s.width ∨ nh ≠ s.height then
    ({ s with pending_width := nw, pending_height := nh, pending_serial := serial
            , resize_pending := true }, [])
  else
    (s, [])

/-- Source lines 689-710: FRAME_READY handler.  Records the sequence
number, attaches/damages/commits the single buffer (compositor-side, not
visible here) and registers a frame callback only when none is pending.
No message is sent to the client. -/
def handle_frame_ready (s : HState) (seq : Int) : HState × List OutMsg :=
  let s1 := { s with frame_seq := seq }
  let s2 := if s1.frame_callback_pending then s1 else register_frame_callback s1
  (s2, [])

/-- Source lines 656-686: apply a queued resize at the top of the loop.
Acks the pending serial, rebuilds the SHM binding (outcome given by
`setupOk`; on failure `state.running` is cleared), registers a frame
callback unconditionally, and sends MSG_RESIZE with the new dimensions. -/
def apply_resize (s : HState) (setupOk : Bool) : HState × List OutMsg :=
  if s.resize_pending = false then (s, [])
  else
    let s1 := { s with width := s.pending_width, height := s.pending_height
                     , resize_pending := false }
    if setupOk = false then ({ s1 with alive := false }, [])
    else
      let s2 := register_frame_callback s1
      (s2, [OutMsg.resizeMsg s2.width s2.height])

/-- The fixed leading record of a CONFIGURE payload (source lines 542-553),
ten `int32_t` fields. -/
structure ConfigFixed where
  layer : Int
  anchor : Int
  exclusive_zone : Int
  keyboard_interactivity : Int
  width : Int
  height : Int
  margin_top : Int
  margin_bottom : Int
  margin_left : Int
  margin_right : Int
deriving DecidableEq, Repr

/-- Outcomes of the external calls made while handling CONFIGURE:
`openResult` is the file descriptor returned by `open` (`none` meaning the
C return value `-1`), `roundtrip` is the compositor configure event
delivered during `wl_display_roundtrip` (serial, width, height), and the
booleans give the success of surface creation, layer-surface creation and
`setup_shm_buffers`. -/
structure ConfigEnv where
  openResult : Option Nat
  surfaceOk : Bool
  layerSurfaceOk : Bool
  roundtrip : Option (Nat × Nat × Nat)
  setupOk : Bool
deriving DecidableEq, Repr

/-- The `int` value stored into `state.shm_fd` by `open`: the descriptor on
success, `-1` on failure. -/
def fdOf : Option Nat → Int
  | some fd => (fd : Int)
  | none => -1

/-- Anchor bit for the top edge (`zwlr_layer_surface_v1` protocol). -/
def ANCHOR_TOP : Nat := 1

/-- Anchor bit for the bottom edge. -/
def ANCHOR_BOTTOM : Nat := 2

/-- Anchor bit for the left edge. -/
def ANCHOR_LEFT : Nat := 4

/-- Anchor bit for the right edge. -/
def ANCHOR_RIGHT : Nat := 8

/-- Source lines 615-623: the size requested from the compositor via
`zwlr_layer_surface_v1_set_size`.  An axis anchored to both opposite edges
is requested as `0`; otherwise the client's dimension is used (cast to
`uint32_t`). -/
def requestedSize (anchor w h : Int) : Nat × Nat :=
  let a := u32 anchor
  (if a &&& (ANCHOR_LEFT ||| ANCHOR_RIGHT) = ANCHOR_LEFT ||| ANCHOR_RIGHT then 0 else u32 w,
   if a &&& (ANCHOR_TOP ||| ANCHOR_BOTTOM) = ANCHOR_TOP ||| ANCHOR_BOTTOM then 0 else u32 h)

/-- Source lines 555-653 (after payload parsing): handle a CONFIGURE
message.  Mirrors the C control flow: store dimensions, open the shared
pixel file, create the surface and the layer surface, commit and roundtrip
(delivering the compositor's initial configure, if any), check
`state.configured`, build the SHM binding, register a frame callback, and
send CFG_ACK.  Returns (new state, messages sent, ok). -/
def handle_configure_msg (s : HState) (cfg : ConfigFixed) (env : ConfigEnv) :
    HState × List OutMsg × Bool :=
  let s1 := { s with width := cfg.width, height := cfg.height, shm_fd := fdOf env.openResult }
  if s1.shm_fd < 0 then
    (s1, [OutMsg.errorMsg 1 "Cannot open shared pixel file"], false)
  else if env.surfaceOk = false then
    (s1, [OutMsg.errorMsg 2 "wl_compositor_create_surface failed"], false)
  else if env.layerSurfaceOk = false then
    (s1, [OutMsg.errorMsg 3 "get_layer_surface failed"], false)
  else
    let s2 := match env.roundtrip with
      | some (serial, w, h) => (layer_surface_configure s1 serial w h).1
      | none => s1
    if s2.configured = false then
      (s2, [OutMsg.errorMsg 4 "Compositor did not send configure event"], false)
    else if env.setupOk = false then
      (s2, [OutMsg.errorMsg 5 "Failed to set up SHM buffers"], false)
    else
      let s3 := register_frame_callback s2
      (s3, [OutMsg.cfgAck s3.width s3.height], true)

/-- The 12-byte IPC header (source lines 63-67). -/
structure MsgHeader where
  magic : Nat
  type : Nat
  len : Nat
deriving DecidableEq, Repr

/-- Source lines 713-742: dispatch one client message.  A magic mismatch is
fatal (`return false`) with no message sent.  CONFIGURE and FRAME_READY go
to their handlers (their decoded payloads are the parameters `cfg`, `env`,
`seq`); SHUTDOWN clears `running`; unknown types are logged and skipped. -/
def dispatch_jvm_message (s : HState) (hdr : MsgHeader) (cfg : ConfigFixed)
    (env : ConfigEnv) (seq : Int) : HState × List OutMsg × Bool :=
  if hdr.magic ≠ MAGIC then (s, [], false)
  else if hdr.type = MSG_CONFIGURE then handle_configure_msg s cfg env
  else if hdr.type = MSG_FRAME_READY then
    let r := handle_frame_ready s seq
    (r.1, r.2, true)
  else if hdr.type = MSG_SHUTDOWN then ({ s with alive := false }, [], true)
  else (s, [], true)

/-- Source lines 781-793: startup error reporting in `main`.  Failure to
connect to Wayland or a missing required global sends ERROR with codes
10-13 and exits. -/
def startup_bind_globals (wlConnectOk compositorOk shmOk layerShellOk : Bool) :
    List OutMsg × Bool :=
  if wlConnectOk = false then ([OutMsg.errorMsg 10 "Cannot connect to Wayland display"], false)
  else if compositorOk = false then ([OutMsg.errorMsg 11 "wl_compositor not available"], false)
  else if shmOk = false then ([OutMsg.errorMsg 12 "wl_shm not available"], false)
  else if layerShellOk = false then
    ([OutMsg.errorMsg 13 "zwlr_layer_shell_v1 not available"], false)
  else ([], true)

/-- Source lines 847-848 restricted to the shared-pixel descriptor: the
final cleanup closes `state.shm_fd` only when it is non-negative. -/
def cleanup_closes (s : HState) : List Int :=
  if 0 ≤ s.shm_fd then [s.shm_fd] else []

/-! ### Session events and traces

The steps a session interleaves: a CONFIGURE message from the client, a
FRAME_READY message, a post-initial compositor configure event, a
frame-callback `done` event for a live callback, and the top-of-loop
resize application. -/

/-- One step of the helper's session. -/
inductive Ev
  | clientConfigure (cfg : ConfigFixed) (env : ConfigEnv)
  | clientFrameReady (seq : Int)
  | compConfigure (serial w h : Nat)
  | cbDone
  | loopResize (setupOk : Bool)
deriving DecidableEq, Repr

/-- Effect of one event on the state, with the messages sent during it.
A failed CONFIGURE makes `dispatch_jvm_message` return false, which breaks
the event loop (source line 841): modelled by clearing `alive`. -/
def step (s : HState) : Ev → HState × List OutMsg
  | Ev.clientConfigure cfg env =>
      let r := handle_configure_msg s cfg env
      (if r.2.2 then r.1 else { r.1 with alive := false }, r.2.1)
  | Ev.clientFrameReady seq => handle_frame_ready s seq
  | Ev.compConfigure serial w h => layer_surface_configure s serial w h
  | Ev.cbDone => frame_callback_done s
  | Ev.loopResize ok => apply_resize s ok

/-- Run a list of events from a state, collecting all sent messages. -/
def run (s : HState) : List Ev → HState × List OutMsg
  | [] => (s, [])
  | ev :: evs =>
      let r1 := step s ev
      let r2 := run r1.1 evs
      (r2.1, r1.2 ++ r2.2)

/-- Whether an event can actually occur in a state: the session must still
be running; the client sends CONFIGURE once, before anything else;
FRAME_READY and post-initial compositor configures require an existing
configured surface; a `done` event requires a live callback object. -/
def evValidB (s : HState) : Ev → Bool
  | Ev.clientConfigure _ _ => s.alive && !s.configured
  | Ev.clientFrameReady _ => s.alive && s.configured
  | Ev.compConfigure _ _ _ => s.alive && s.configured
  | Ev.cbDone => s.alive && decide (0 < s.liveCallbacks)
  | Ev.loopResize _ => s.alive

/-- A trace is valid from `s` when every event is valid in the state it
fires in. -/
def validB (s : HState) : List Ev → Bool
  | [] => true
  | ev :: evs => evValidB s ev && validB (step s ev).1 evs

/-- A trace applies resizes only at quiescent moments: whenever a
`loopResize` step fires with a resize actually pending, no frame callback
is live. -/
def resizeSafeB (s : HState) : List Ev → Bool
  | [] => true
  | ev :: evs =>
      (match ev with
       | Ev.loopResize _ => !s.resize_pending || s.liveCallbacks == 0
       | _ => true) && resizeSafeB (step s ev).1 evs

/-- Accumulate the most recent FRAME_READY sequence number over one event. -/
def readAcc (a : Int) : Ev → Int
  | Ev.clientFrameReady q => q
  | _ => a

/-- Most recent FRAME_READY sequence number in a trace, starting from `a`. -/
def lastReadySeqFrom : Int → List Ev → Int
  | a, [] => a
  | a, ev :: evs => lastReadySeqFrom (readAcc a ev) evs

/-- Most recent FRAME_READY sequence number in a trace (0 when none, the
initial value of `state.frame_seq`). -/
def lastReadySeq (evs : List Ev) : Int := lastReadySeqFrom 0 evs

/-- Sequence numbers of the FRAME_READY events of a trace, in order. -/
def readySeqs (evs : List Ev) : List Int :=
  evs.filterMap fun ev => match ev with
    | Ev.clientFrameReady q => some q
    | _ => none

/-- Sequence numbers of the FRAME_DONE messages of an output, in order. -/
def doneSeqs (out : List OutMsg) : List Int :=
  out.filterMap fun m => match m with
    | OutMsg.frameDone q => some q
    | _ => none

/-- A CONFIGURE environment in which every external call succeeds and the
roundtrip delivers the compositor's initial configure. -/
def envOK (fd serial w h : Nat) : ConfigEnv :=
  { openResult := some fd, surfaceOk := true, layerSurfaceOk := true
  , roundtrip := some (serial, w, h), setupOk := true }

/-- A CONFIGURE environment in which `open` fails (bad path). -/
def envFail : ConfigEnv :=
  { openResult := none, surfaceOk := false, layerSurfaceOk := false
  , roundtrip := none, setupOk := false }

/-- The CONFIGURE record of the spec's cold-start scenario. -/
def cfg0 : ConfigFixed :=
  { layer := 2, anchor := 15, exclusive_zone := -1, keyboard_interactivity := 0
  , width := 800, height := 600, margin_top := 0, margin_bottom := 0
  , margin_left := 0, margin_right := 0 }

/-- A fully successful cold-start environment: descriptor 7, initial
configure with serial 1 at 800x600. -/
def env0 : ConfigEnv := envOK 7 1 800 600

/-- The paced client: each FRAME_READY waits for the preceding callback
`done` before being sent. -/
def pacedSegs : List Int → List Ev
  | [] => []
  | q :: qs => Ev.clientFrameReady q :: Ev.cbDone :: pacedSegs qs

/-- A full paced session: CONFIGURE, the initial frame callback firing,
then one FRAME_READY / `done` pair per sequence number. -/
def pacedTrace (cfg : ConfigFixed) (env : ConfigEnv) (qs : List Int) : List Ev :=
  Ev.clientConfigure cfg env :: Ev.cbDone :: pacedSegs qs

/-! ### Keyboard input (source lines 369-412) -/

/-- Abstraction of the compiled xkb keymap and modifier state the helper
queries in `kb_key`: `keysymOf` is `xkb_state_key_get_one_sym` (as the
`int32_t` the helper stores), and the four booleans are the results of
`xkb_state_mod_name_is_active(..., XKB_STATE_MODS_EFFECTIVE) > 0` for
Shift, Ctrl, Alt and Super/Logo. -/
structure XkbM where
  keysymOf : Nat → Int
  shiftActive : Bool
  ctrlActive : Bool
  altActive : Bool
  logoActive : Bool

/-- The modifier bitmask built by `kb_key` (source lines 399-402): bit 0
Shift, bit 1 Ctrl, bit 2 Alt, bit 3 Super/Logo. -/
def modMask (x : XkbM) : Int :=
  (if x.shiftActive then 1 else 0) + (if x.ctrlActive then 2 else 0)
  + (if x.altActive then 4 else 0) + (if x.logoActive then 8 else 0)

/-- Source lines 369-412: the `wl_keyboard.key` handler.  With a compiled
keymap present it resolves the keysym at xkb keycode `key + 8`, builds the
modifier bitmask, and sends KEY_EVENT with payload words in buffer order:
evdev code, press state, modifiers, keysym. -/
def kb_key (xkb : Option XkbM) (key kbState : Nat) : OutMsg :=
  match xkb with
  | none => OutMsg.keyEvent [asInt32 key, asInt32 kbState, 0, 0]
  | some x => OutMsg.keyEvent [asInt32 key, asInt32 kbState, modMask x, x.keysymOf (key + 8)]

/-! ### SHM teardown order (source lines 486-507) -/

/-- Teardown actions of `setup_shm_buffers` and of the final cleanup. -/
inductive ShmAct
  | unmapPixels
  | destroyBuffer (i : Nat)
  | destroyPool
deriving DecidableEq, Repr

/-- Source lines 489-507: the teardown prologue of `setup_shm_buffers`, as
the ordered list of destruction actions it performs, given which resources
currently exist (`state.pixels`, `state.slots[0].buf`, `state.slots[1].buf`,
`state.shm_pool` non-null).  The source order is: `munmap` the pixels, then
destroy buffer 0, then buffer 1, then the pool. -/
def setup_shm_teardown (pixels buf0 buf1 pool : Bool) : List ShmAct :=
  (if pixels then [ShmAct.unmapPixels] else [])
  ++ (if buf0 then [ShmAct.destroyBuffer 0] else [])
  ++ (if buf1 then [ShmAct.destroyBuffer 1] else [])
  ++ (if pool then [ShmAct.destroyPool] else [])

/-! ### Byte-level CONFIGURE payload parsing (source lines 555-575) -/

/-- Read a 32-bit little-endian word from a byte list; out-of-range reads
return the bytes a C out-of-bounds read might see (here 0, the value is
irrelevant to the claims). -/
def readU32 (p : List Nat) (off : Nat) : Nat :=
  p.getD off 0 + p.getD (off + 1) 0 * 256 + p.getD (off + 2) 0 * 65536
    + p.getD (off + 3) 0 * 16777216

/-- Modulus of C `uint32_t` arithmetic. -/
def U32MOD : Nat := 4294967296

/-- Offsets and copy lengths produced by a successful CONFIGURE payload
parse: where and how much `memcpy` reads for the namespace string and the
shared-file path, and where the two length words were read. -/
structure CfgParse where
  nsLen : Nat
  nsOff : Nat
  nsCopy : Nat
  shmLenOff : Nat
  shmLen : Nat
  shmOff : Nat
  shmCopy : Nat
deriving DecidableEq, Repr

/-- Source lines 555-575: parsing of a CONFIGURE payload.  `offset`,
`ns_len`, `shm_len` and `len` are `uint32_t`, so every addition wraps
modulo `2^32` exactly as in C.  The fixed record is 40 bytes; `ns_len` is
read at offset 40; the check `offset + ns_len + 4 > len` (offset = 44)
rejects the payload; at most 255 bytes of namespace are copied from offset
44; `shm_len` is read at offset `44 + ns_len`; the check
`offset + shm_len > len` rejects; at most 511 bytes of path are copied. -/
def handle_configure_parse (p : List Nat) : Option CfgParse :=
  let len := p.length
  if len < 48 then none
  else
    let ns_len := readU32 p 40
    if len < (44 + ns_len + 4) % U32MOD then none
    else
      let nsCopy := if ns_len < 255 then ns_len else 255
      let off1 := (44 + ns_len) % U32MOD
      let shm_len := readU32 p off1
      let off2 := (off1 + 4) % U32MOD
      if len < (off2 + shm_len) % U32MOD then none
      else
        let shmCopy := if shm_len < 511 then shm_len else 511
        some { nsLen := ns_len, nsOff := 44, nsCopy := nsCopy, shmLenOff := off1
             , shmLen := shm_len, shmOff := off2, shmCopy := shmCopy }

/-- A 48-byte CONFIGURE payload whose namespace-length word (bytes 40-43)
is `0xFFFFFFD0 = 2^32 - 48`: all other bytes are zero. -/
def overflowPayload : List Nat :=
  List.replicate 40 0 ++ [0xD0, 0xFF, 0xFF, 0xFF] ++ List.replicate 4 0

/-- Callback-count invariant: before the initial configure nothing
callback-related has happened; afterwards at most one callback object is
live, and the pending flag tracks exactly whether one is. -/
def cbInv (s : HState) : Prop :=
  (s.configured = false →
    s.liveCallbacks = 0 ∧ s.frame_callback_pending = false ∧ s.resize_pending = false)
  ∧ s.liveCallbacks ≤ 1
  ∧ (s.frame_callback_pending = true ↔ s.liveCallbacks = 1)

/-! ## Helper lemmas -/

theorem land_twelve_iff (n : Nat) : n &&& 12 = 12 ↔ (n.testBit 2 ∧ n.testBit 3) := by
  have t2 : Nat.testBit 12 2 = true := by decide
  have t3 : Nat.testBit 12 3 = true := by decide
  have t0 : Nat.testBit 12 0 = false := by decide
  have t1 : Nat.testBit 12 1 = false := by decide
  constructor
  · intro h
    constructor
    · have h2 := congrArg (fun m => m.testBit 2) h
      simpa [Nat.testBit_land, t2] using h2
    · have h3 := congrArg (fun m => m.testBit 3) h
      simpa [Nat.testBit_land, t3] using h3
  · rintro ⟨h2, h3⟩
    apply Nat.eq_of_testBit_eq
    intro i
    rw [Nat.testBit_land]
    match i with
    | 0 => simp [t0]
    | 1 => simp [t1]
    | 2 => simp [t2, h2]
    | 3 => simp [t3, h3]
    | k + 4 =>
      have hlt : (12 : Nat) < 2 ^ (k + 4) := by
        calc (12 : Nat) < 2 ^ 4 := by norm_num
        _ ≤ 2 ^ (k + 4) := Nat.pow_le_pow_right (by norm_num) (by omega)
      rw [Nat.testBit_lt_two_pow hlt]
      simp

theorem land_three_iff (n : Nat) : n &&& 3 = 3 ↔ (n.testBit 0 ∧ n.testBit 1) := by
  have t0 : Nat.testBit 3 0 = true := by decide
  have t1 : Nat.testBit 3 1 = true := by decide
  constructor
  · intro h
    constructor
    · have h0 := congrArg (fun m => m.testBit 0) h
      simpa [Nat.testBit_land, t0] using h0
    · have h1 := congrArg (fun m => m.testBit 1) h
      simpa [Nat.testBit_land, t1] using h1
  · rintro ⟨h0, h1⟩
    apply Nat.eq_of_testBit_eq
    intro i
    rw [Nat.testBit_land]
    match i with
    | 0 => simp [t0, h0]
    | 1 => simp [t1, h1]
    | k + 2 =>
      have hlt : (3 : Nat) < 2 ^ (k + 2) := by
        calc (3 : Nat) < 2 ^ 2 := by norm_num
        _ ≤ 2 ^ (k + 2) := Nat.pow_le_pow_right (by norm_num) (by omega)
      rw [Nat.testBit_lt_two_pow hlt]
      simp

/-! ## C6 -/

/-- C6: for every CONFIGURE, the size requested from the compositor is
computed per axis: a width of 0 exactly when the anchor bitmask contains
both LEFT (bit 2) and RIGHT (bit 3), the client's width otherwise, and a
height of 0 exactly when the anchor contains both TOP (bit 0) and
BOTTOM (bit 1), the client's height otherwise.  In particular the spec's
example anchor = LEFT|RIGHT|TOP (13) with w=50, h=30 yields (0, 30). -/
theorem requested_size_per_axis :
    (∀ anchor w h : Int,
      requestedSize anchor w h
        = (if (u32 anchor).testBit 2 ∧ (u32 anchor).testBit 3 then 0 else u32 w,
           if (u32 anchor).testBit 0 ∧ (u32 anchor).testBit 1 then 0 else u32 h))
  ∧ requestedSize 13 50 30 = (0, 30) := by
  constructor
  · intro anchor w h
    have e12 : (ANCHOR_LEFT ||| ANCHOR_RIGHT : Nat) = 12 := by decide
    have e3 : (ANCHOR_TOP ||| ANCHOR_BOTTOM : Nat) = 3 := by decide
    unfold requestedSize
    rw [e12, e3]
    have h12 := propext (land_twelve_iff (u32 anchor))
    have h3 := propext (land_three_iff (u32 anchor))
    simp only [h12, h3]
  · decide

/-! ## C4 -/

/-- C4 counterexample: in the resize teardown (mapping, buffer 0 and pool
all present, the state after any successful `setup_shm_buffers`), the
source unmaps the pixel mapping first; the buffer handle is NOT destroyed
before the unmap, contradicting the claimed order buffer, pool, unmap. -/
theorem teardown_order_counterexample :
    setup_shm_teardown true true false true
      = [ShmAct.unmapPixels, ShmAct.destroyBuffer 0, ShmAct.destroyPool]
  ∧ ¬ ((setup_shm_teardown true true false true).indexOf (ShmAct.destroyBuffer 0)
        < (setup_shm_teardown true true false true).indexOf ShmAct.unmapPixels) := by
  decide

/-- C4 amended: whatever subset of the resources exists, the teardown in
`setup_shm_buffers` runs in the order: unmap the pixel mapping first, then
destroy the buffer handle(s), then destroy the shared-memory pool. -/
theorem teardown_order_amended :
    ∀ pixels buf0 buf1 pool : Bool,
      (pixels = true → buf0 = true →
        (setup_shm_teardown pixels buf0 buf1 pool).indexOf ShmAct.unmapPixels
          < (setup_shm_teardown pixels buf0 buf1 pool).indexOf (ShmAct.destroyBuffer 0))
    ∧ (pixels = true → buf1 = true →
        (setup_shm_teardown pixels buf0 buf1 pool).indexOf ShmAct.unmapPixels
          < (setup_shm_teardown pixels buf0 buf1 pool).indexOf (ShmAct.destroyBuffer 1))
    ∧ (buf0 = true → pool = true →
        (setup_shm_teardown pixels buf0 buf1 pool).indexOf (ShmAct.destroyBuffer 0)
          < (setup_shm_teardown pixels buf0 buf1 pool).indexOf ShmAct.destroyPool)
    ∧ (buf1 = true → pool = true →
        (setup_shm_teardown pixels buf0 buf1 pool).indexOf (ShmAct.destroyBuffer 1)
          < (setup_shm_teardown pixels buf0 buf1 pool).indexOf ShmAct.destroyPool)
    ∧ (pixels = true → pool = true →
        (setup_shm_teardown pixels buf0 buf1 pool).indexOf ShmAct.unmapPixels
          < (setup_shm_teardown pixels buf0 buf1 pool).indexOf ShmAct.destroyPool) := by
  decide

/-- Witness for the amended C4 ordering at the concrete resize state. -/
theorem teardown_order_amended_witness :
    (setup_shm_teardown true true false true).indexOf ShmAct.unmapPixels
      < (setup_shm_teardown true true false true).indexOf (ShmAct.destroyBuffer 0) :=
  (teardown_order_amended true true false true).1 rfl rfl

/-! ## C8 -/

/-- C8: with a compiled keymap present, every key event is sent as a
KEY_EVENT whose payload words are, in order: the evdev code, the press
state, the modifier bitmask and the xkb keysym resolved at keycode
`evdev + 8`; and the modifier bitmask has bit 0 = Shift, bit 1 = Ctrl,
bit 2 = Alt, bit 3 = Super/Logo (so it is a 4-bit mask). -/
theorem key_event_payload :
    (∀ (x : XkbM) (key kbState : Nat),
      kb_key (some x) key kbState
        = OutMsg.keyEvent [asInt32 key, asInt32 kbState, modMask x, x.keysymOf (key + 8)])
  ∧ (∀ x : XkbM,
      (modMask x).toNat.testBit 0 = x.shiftActive
    ∧ (modMask x).toNat.testBit 1 = x.ctrlActive
    ∧ (modMask x).toNat.testBit 2 = x.altActive
    ∧ (modMask x).toNat.testBit 3 = x.logoActive
    ∧ 0 ≤ modMask x ∧ modMask x < 16) := by
  constructor
  · intro x key kbState
    rfl
  · intro x
    rcases x with ⟨f, sh, ct, al, lo⟩
    have h : modMask ⟨f, sh, ct, al, lo⟩
        = (if sh then 1 else 0) + (if ct then 2 else 0) + (if al then 4 else 0)
          + (if lo then 8 else 0) := rfl
    simp only [h]
    cases sh <;> cases ct <;> cases al <;> cases lo <;> decide

/-! ## C10 -/

/-- C10 (code bug, evaluated at the failing input): a 48-byte CONFIGURE
payload whose namespace-length word is `0xFFFFFFD0` wraps the `uint32_t`
bounds check `offset + ns_len + 4 > len` to 0, so the payload is accepted;
the namespace `memcpy` then reads 255 bytes starting at offset 44 of the
48-byte payload (299 > 48), and the path-length word is read at wrapped
offset `0xFFFFFFFC`, far beyond the payload. -/
theorem configure_parse_overflow_reads_oob :
    overflowPayload.length = 48
  ∧ handle_configure_parse overflowPayload
      = some { nsLen := 4294967248, nsOff := 44, nsCopy := 255
             , shmLenOff := 4294967292, shmLen := 0, shmOff := 0, shmCopy := 0 }
  ∧ 48 < 44 + 255
  ∧ 48 < 4294967292 := by
  refine ⟨by decide, by decide, by decide, by decide⟩

/-! ## C5 -/

/-- C5 counterexample: a header with magic `0xDEADBEEF` is fatal
(dispatch returns false, the loop breaks and the session is torn down) yet
NO message at all — in particular no ERROR — is sent to the client first. -/
theorem bad_magic_no_error_message :
    dispatch_jvm_message init
      { magic := 0xDEADBEEF, type := MSG_FRAME_READY, len := 8 } cfg0 env0 1
      = (init, [], false) := by
  decide

/-- C5 amended: fatal errors during CONFIGURE handling (codes 1-5) and at
startup (Wayland connect failure and missing required globals, codes 10-13)
attempt to send an ERROR message before tearing down, but a magic mismatch
tears the session down without sending anything. -/
theorem fatal_error_reporting_amended :
    (∀ (s : HState) (cfg : ConfigFixed) (env : ConfigEnv),
        (handle_configure_msg s cfg env).2.2 = false →
        ∃ c m, OutMsg.errorMsg c m ∈ (handle_configure_msg s cfg env).2.1)
  ∧ (∀ wlConnectOk compositorOk shmOk layerShellOk : Bool,
        (startup_bind_globals wlConnectOk compositorOk shmOk layerShellOk).2 = false →
        ∃ c m, OutMsg.errorMsg c m
          ∈ (startup_bind_globals wlConnectOk compositorOk shmOk layerShellOk).1)
  ∧ (∀ (s : HState) (hdr : MsgHeader) (cfg : ConfigFixed) (env : ConfigEnv) (seq : Int),
        hdr.magic ≠ MAGIC →
        dispatch_jvm_message s hdr cfg env seq = (s, [], false)) := by
  refine ⟨?_, ?_, ?_⟩
  · intro s cfg env h
    rcases env with ⟨openR, sOk, lsOk, rt, setOk⟩
    rcases rt with _ | ⟨serial, w, hh⟩ <;>
      simp only [handle_configure_msg] at h ⊢ <;>
      split_ifs at h ⊢ <;>
      simp_all
  · intro a b c d h
    simp only [startup_bind_globals] at h ⊢
    split_ifs at h ⊢ <;> simp_all
  · intro s hdr cfg env seq h
    simp only [dispatch_jvm_message, if_pos h]

/-- Witness for the amended C5 statement at concrete failing inputs. -/
theorem fatal_error_reporting_amended_witness :
    (∃ c m, OutMsg.errorMsg c m ∈ (handle_configure_msg init cfg0 envFail).2.1)
  ∧ (∃ c m, OutMsg.errorMsg c m ∈ (startup_bind_globals false true true true).1)
  ∧ dispatch_jvm_message init
      { magic := 1, type := MSG_FRAME_READY, len := 8 } cfg0 envFail 1 = (init, [], false) :=
  ⟨fatal_error_reporting_amended.1 init cfg0 envFail (by decide),
   fatal_error_reporting_amended.2.1 false true true true (by decide),
   fatal_error_reporting_amended.2.2 init
     { magic := 1, type := MSG_FRAME_READY, len := 8 } cfg0 envFail 1 (by decide)⟩

/-! ## C7 -/

/-- C7: a compositor configure with a zero axis is non-fatal (no message is
sent, the session keeps running) and the zero axis is replaced by the
current session dimension, in every session state: the replacement
`configure_new_dims` keeps `s.width` (resp. `s.height`) when the incoming
width (resp. height) is zero, and every branch of the handler uses exactly
those replaced dimensions — the initial branch stores them, the resize
branch stashes them as the pending size, and the same-size branch leaves
the state unchanged. -/
theorem zero_size_configure_keeps_current (s : HState) (serial w h : Nat) :
    (layer_surface_configure s serial w h).2 = []
  ∧ (layer_surface_configure s serial w h).1.alive = s.alive
  ∧ (configure_new_dims s 0 h).1 = s.width
  ∧ (configure_new_dims s w 0).2 = s.height
  ∧ (s.configured = false →
      ((layer_surface_configure s serial w h).1.width,
       (layer_surface_configure s serial w h).1.height) = configure_new_dims s w h)
  ∧ (s.configured = true → configure_new_dims s w h ≠ (s.width, s.height) →
        (layer_surface_configure s serial w h).1.resize_pending = true
      ∧ ((layer_surface_configure s serial w h).1.pending_width,
         (layer_surface_configure s serial w h).1.pending_height) = configure_new_dims s w h
      ∧ (layer_surface_configure s serial w h).1.width = s.width
      ∧ (layer_surface_configure s serial w h).1.height = s.height)
  ∧ (s.configured = true → configure_new_dims s w h = (s.width, s.height) →
        (layer_surface_configure s serial w h).1 = s) := by
  have hne : (configure_new_dims s w h ≠ (s.width, s.height))
      ↔ ((configure_new_dims s w h).1 ≠ s.width ∨ (configure_new_dims s w h).2 ≠ s.height) := by
    simp only [ne_eq, Prod.ext_iff, not_and_or]
  refine ⟨?_, ?_, ?_, ?_, ?_, ?_, ?_⟩
  · simp only [layer_surface_configure]
    split_ifs <;> rfl
  · simp only [layer_surface_configure]
    split_ifs <;> rfl
  · simp [configure_new_dims]
  · simp [configure_new_dims]
  · intro hc
    simp [layer_surface_configure, hc]
  · intro hc hd
    have hd2 : (configure_new_dims s w h).1 ≠ s.width
        ∨ (configure_new_dims s w h).2 ≠ s.height := hne.mp hd
    simp [layer_surface_configure, hc, hd2]
  · intro hc hd
    have hd2 : ¬ ((configure_new_dims s w h).1 ≠ s.width
        ∨ (configure_new_dims s w h).2 ≠ s.height) := by
      rw [← hne]
      simp [hd]
    simp [layer_surface_configure, hc, hd2]

/-- Witness for C7 at a concrete state: the initial configure of the cold
start with a zero width keeps the current width. -/
theorem zero_size_configure_keeps_current_witness :
    (layer_surface_configure init 3 0 7).2 = []
  ∧ ((layer_surface_configure init 3 0 7).1.width,
     (layer_surface_configure init 3 0 7).1.height) = configure_new_dims init 0 7 :=
  ⟨(zero_size_configure_keeps_current init 3 0 7).1,
   (zero_size_configure_keeps_current init 3 0 7).2.2.2.2.1 rfl⟩

/-! ## Field-preservation lemmas for the step relation -/

theorem lsc_frame_seq (s : HState) (serial w h : Nat) :
    (layer_surface_configure s serial w h).1.frame_seq = s.frame_seq := by
  simp only [layer_surface_configure]
  split_ifs <;> rfl

theorem lsc_shm_fd (s : HState) (serial w h : Nat) :
    (layer_surface_configure s serial w h).1.shm_fd = s.shm_fd := by
  simp only [layer_surface_configure]
  split_ifs <;> rfl

theorem hcm_frame_seq (s : HState) (cfg : ConfigFixed) (env : ConfigEnv) :
    (handle_configure_msg s cfg env).1.frame_seq = s.frame_seq := by
  rcases env with ⟨openR, sOk, lsOk, rt, setOk⟩
  rcases rt with _ | ⟨serial, w, h⟩ <;>
    simp only [handle_configure_msg] <;>
    split_ifs <;>
    simp [register_frame_callback, lsc_frame_seq]

theorem hcm_shm_fd (s : HState) (cfg : ConfigFixed) (env : ConfigEnv) :
    (handle_configure_msg s cfg env).1.shm_fd = fdOf env.openResult := by
  rcases env with ⟨openR, sOk, lsOk, rt, setOk⟩
  rcases rt with _ | ⟨serial, w, h⟩ <;>
    simp only [handle_configure_msg] <;>
    split_ifs <;>
    simp [register_frame_callback, lsc_shm_fd]

theorem hcm_no_frame_done (s : HState) (cfg : ConfigFixed) (env : ConfigEnv) (q : Int) :
    OutMsg.frameDone q ∉ (handle_configure_msg s cfg env).2.1 := by
  rcases env with ⟨openR, sOk, lsOk, rt, setOk⟩
  rcases rt with _ | ⟨serial, w, h⟩ <;>
    simp only [handle_configure_msg] <;>
    split_ifs <;>
    simp

theorem step_frame_seq (s : HState) (ev : Ev) :
    (step s ev).1.frame_seq = readAcc s.frame_seq ev := by
  cases ev with
  | clientConfigure cfg env =>
      simp only [step, readAcc]
      split_ifs <;> simp [hcm_frame_seq]
  | clientFrameReady q =>
      simp only [step, handle_frame_ready, readAcc]
      split_ifs <;> simp [register_frame_callback]
  | compConfigure serial w h =>
      simp only [step, readAcc, lsc_frame_seq]
  | cbDone => rfl
  | loopResize ok =>
      simp only [step, apply_resize, readAcc]
      split_ifs <;> simp [register_frame_callback]

theorem run_frame_seq (evs : List Ev) : ∀ s : HState,
    (run s evs).1.frame_seq = lastReadySeqFrom s.frame_seq evs := by
  induction evs with
  | nil => intro s; rfl
  | cons ev evs ih =>
      intro s
      show (run (step s ev).1 evs).1.frame_seq = _
      rw [ih, step_frame_seq]
      rfl

/-! ## C1 -/

/-- C1: FRAME_DONE is emitted only by the frame-callback done handler —
processing FRAME_READY sends nothing, and no other step emits a frameDone
message — and every execution of the done handler destroys the callback
object, clears the pending flag, and sends exactly one FRAME_DONE carrying
the most recently received FRAME_READY sequence number (0, the initial
value of `state.frame_seq`, when none has been received yet). -/
theorem frame_done_only_from_done_handler :
    (∀ (s : HState) (ev : Ev) (q : Int),
        OutMsg.frameDone q ∈ (step s ev).2 → ev = Ev.cbDone ∧ q = s.frame_seq)
  ∧ (∀ (s : HState) (q : Int), (step s (Ev.clientFrameReady q)).2 = [])
  ∧ (∀ s : HState,
        (step s Ev.cbDone).2 = [OutMsg.frameDone s.frame_seq]
      ∧ (step s Ev.cbDone).1.frame_callback_pending = false
      ∧ (step s Ev.cbDone).1.liveCallbacks = s.liveCallbacks - 1)
  ∧ (∀ evs : List Ev,
        (step (run init evs).1 Ev.cbDone).2 = [OutMsg.frameDone (lastReadySeq evs)]) := by
  refine ⟨?_, ?_, ?_, ?_⟩
  · intro s ev q hmem
    cases ev with
    | clientConfigure cfg env =>
        exact absurd hmem (hcm_no_frame_done s cfg env q)
    | clientFrameReady seq =>
        simp only [step, handle_frame_ready] at hmem
        simp at hmem
    | compConfigure serial w h =>
        simp only [step, layer_surface_configure] at hmem
        split_ifs at hmem <;> simp at hmem
    | cbDone =>
        simp only [step, frame_callback_done] at hmem
        simp at hmem
        exact ⟨rfl, hmem⟩
    | loopResize ok =>
        simp only [step, apply_resize] at hmem
        split_ifs at hmem <;> simp at hmem
  · intro s q
    simp only [step, handle_frame_ready]
  · intro s
    exact ⟨rfl, rfl, rfl⟩
  · intro evs
    show (frame_callback_done (run init evs).1).2 = _
    simp only [frame_callback_done]
    rw [run_frame_seq]
    rfl

/-- Witness for C1: the frameDone-membership hypothesis is satisfiable, at
the initial state and the done event. -/
theorem frame_done_only_from_done_handler_witness :
    Ev.cbDone = Ev.cbDone ∧ (0 : Int) = init.frame_seq :=
  frame_done_only_from_done_handler.1 init Ev.cbDone 0 (by decide)

/-! ## C9 -/

theorem step_shm_fd (s : HState) (ev : Ev) :
    (step s ev).1.shm_fd = s.shm_fd
  ∨ ∃ cfg env, ev = Ev.clientConfigure cfg env
      ∧ (step s ev).1.shm_fd = fdOf env.openResult := by
  cases ev with
  | clientConfigure cfg env =>
      right
      refine ⟨cfg, env, rfl, ?_⟩
      simp only [step]
      split_ifs <;> simp [hcm_shm_fd]
  | clientFrameReady q =>
      left
      simp only [step, handle_frame_ready]
      split_ifs <;> rfl
  | compConfigure serial w h =>
      left
      exact lsc_shm_fd s serial w h
  | cbDone => left; rfl
  | loopResize ok =>
      left
      simp only [step, apply_resize]
      split_ifs <;> rfl

theorem run_shm_fd (evs : List Ev) : ∀ s : HState,
    (run s evs).1.shm_fd = s.shm_fd
  ∨ ∃ cfg env, Ev.clientConfigure cfg env ∈ evs
      ∧ (run s evs).1.shm_fd = fdOf env.openResult := by
  induction evs with
  | nil => intro s; left; rfl
  | cons ev evs ih =>
      intro s
      have hrun : (run s (ev :: evs)).1 = (run (step s ev).1 evs).1 := rfl
      rw [hrun]
      rcases ih (step s ev).1 with h | ⟨cfg, env, hmem, hfd⟩
      · rcases step_shm_fd s ev with h2 | ⟨cfg, env, hev, hfd⟩
        · left
          rw [h, h2]
        · right
          exact ⟨cfg, env, by rw [hev]; exact List.mem_cons_self _ _, by rw [h, hfd]⟩
      · right
        exact ⟨cfg, env, List.mem_cons_of_mem _ hmem, hfd⟩

/-- C9: the shared-pixel descriptor is initialised to the sentinel -1
before the event loop runs, cleanup closes it only when it is
non-negative, a run in which every CONFIGURE failed to open the file
closes nothing at shutdown, and any descriptor cleanup does close was
returned by the `open` of some CONFIGURE the helper itself executed. -/
theorem shm_fd_sentinel_safety :
    init.shm_fd = -1
  ∧ (∀ s : HState, s.shm_fd < 0 → cleanup_closes s = [])
  ∧ (∀ evs : List Ev,
      (∀ cfg env, Ev.clientConfigure cfg env ∈ evs → env.openResult = none) →
      cleanup_closes (run init evs).1 = [])
  ∧ (∀ (evs : List Ev) (f : Int), f ∈ cleanup_closes (run init evs).1 →
      ∃ cfg env fd, Ev.clientConfigure cfg env ∈ evs
        ∧ env.openResult = some fd ∧ (fd : Int) = f) := by
  refine ⟨rfl, ?_, ?_, ?_⟩
  · intro s h
    simp [cleanup_closes, not_le.mpr h]
  · intro evs hall
    rcases run_shm_fd evs init with h | ⟨cfg, env, hmem, hfd⟩
    · have hm1 : (run init evs).1.shm_fd = -1 := h
      norm_num [cleanup_closes, hm1]
    · have hnone := hall cfg env hmem
      rw [hnone] at hfd
      norm_num [cleanup_closes, hfd, fdOf]
  · intro evs f hf
    have h0 : 0 ≤ (run init evs).1.shm_fd ∧ f = (run init evs).1.shm_fd := by
      by_cases hle : 0 ≤ (run init evs).1.shm_fd
      · simp only [cleanup_closes, if_pos hle, List.mem_singleton] at hf
        exact ⟨hle, hf⟩
      · simp only [cleanup_closes, if_neg hle, List.not_mem_nil] at hf
    rcases run_shm_fd evs init with h | ⟨cfg, env, hmem, hfd⟩
    · exfalso
      have : (0 : Int) ≤ -1 := by
        have hm1 : (run init evs).1.shm_fd = -1 := h
        rw [← hm1]
        exact h0.1
      norm_num at this
    · rcases henv : env.openResult with _ | fd
      · exfalso
        rw [henv] at hfd
        have : (0 : Int) ≤ -1 := by
          rw [show (-1 : Int) = fdOf none from rfl, ← hfd]
          exact h0.1
        norm_num at this
      · exact ⟨cfg, env, fd, hmem, henv, by rw [h0.2, hfd, henv]; rfl⟩

/-- Witness for C9: a run whose single CONFIGURE fails to open the shared
file (bad path) closes no descriptor at shutdown. -/
theorem shm_fd_sentinel_safety_witness :
    cleanup_closes (run init [Ev.clientConfigure cfg0 envFail]).1 = [] :=
  shm_fd_sentinel_safety.2.2.1 [Ev.clientConfigure cfg0 envFail]
    (by
      intro cfg env hmem
      have h := List.mem_singleton.mp hmem
      injection h with h1 h2
      rw [h2]
      rfl)

/-! ## C2 -/

theorem hcm_envOK_eq (s : HState) (cfg : ConfigFixed) (fd serial w h : Nat)
    (hc : s.configured = false) :
    ∃ nw nh : Int,
      handle_configure_msg s cfg (envOK fd serial w h)
        = ({ s with width := nw, height := nh, shm_fd := (fd : Int),
                    configure_serial := serial, configured := true,
                    frame_callback_pending := true,
                    liveCallbacks := s.liveCallbacks + 1 },
           [OutMsg.cfgAck nw nh], true) := by
  refine ⟨(configure_new_dims { s with width := cfg.width, height := cfg.height,
                                       shm_fd := (fd : Int) } w h).1,
    (configure_new_dims { s with width := cfg.width, height := cfg.height,
                                 shm_fd := (fd : Int) } w h).2, ?_⟩
  have hfd : ¬ (fdOf (some fd) < 0) := not_lt.mpr (Int.natCast_nonneg fd)
  simp [handle_configure_msg, envOK, fdOf, hfd, layer_surface_configure,
        register_frame_callback, hc]

theorem readySeqs_pacedSegs (qs : List Int) : readySeqs (pacedSegs qs) = qs := by
  induction qs with
  | nil => rfl
  | cons q qs ih =>
      show readySeqs (Ev.clientFrameReady q :: Ev.cbDone :: pacedSegs qs) = q :: qs
      simp only [readySeqs, List.filterMap_cons]
      simpa [readySeqs] using ih

theorem pacedSegs_run (qs : List Int) : ∀ s : HState,
    s.alive = true → s.configured = true → s.frame_callback_pending = false →
    s.liveCallbacks = 0 →
    validB s (pacedSegs qs) = true
  ∧ doneSeqs (run s (pacedSegs qs)).2 = qs := by
  induction qs with
  | nil =>
      intro s _ _ _ _
      exact ⟨rfl, rfl⟩
  | cons q qs ih =>
      intro s ha hc hp hl
      have h1 : step s (Ev.clientFrameReady q)
          = ({ s with frame_seq := q, frame_callback_pending := true,
                      liveCallbacks := s.liveCallbacks + 1 }, []) := by
        simp [step, handle_frame_ready, register_frame_callback, hp]
      have h2 : step { s with frame_seq := q, frame_callback_pending := true,
                              liveCallbacks := s.liveCallbacks + 1 } Ev.cbDone
          = ({ s with frame_seq := q, frame_callback_pending := false,
                      liveCallbacks := s.liveCallbacks }, [OutMsg.frameDone q]) := by
        simp [step, frame_callback_done]
      obtain ⟨ihv, ihd⟩ := ih { s with frame_seq := q, frame_callback_pending := false,
                                       liveCallbacks := s.liveCallbacks } ha hc rfl hl
      refine ⟨?_, ?_⟩
      · rw [hc, ha] at ihv
        simp only [pacedSegs, validB, h1, h2, evValidB]
        simp [ha, hc, ihv]
      · simp only [pacedSegs, run, h1, h2]
        simp only [doneSeqs, List.filterMap_append, List.filterMap_cons] at ihd ⊢
        simpa using ihd

/-- C2 amended (provable part): when the client paces itself — each
FRAME_READY sent only after the preceding frame-callback done — the helper
emits, after the FRAME_DONE(0) triggered by the configure-time callback,
exactly one FRAME_DONE per FRAME_READY, in order, with matching sequence
numbers. -/
theorem frame_pacing_amended (cfg : ConfigFixed) (fd serial w h : Nat) (qs : List Int) :
    validB init (pacedTrace cfg (envOK fd serial w h) qs) = true
  ∧ readySeqs (pacedTrace cfg (envOK fd serial w h) qs) = qs
  ∧ doneSeqs (run init (pacedTrace cfg (envOK fd serial w h) qs)).2 = 0 :: qs := by
  obtain ⟨nw, nh, heq⟩ := hcm_envOK_eq init cfg fd serial w h rfl
  have hstep1 : step init (Ev.clientConfigure cfg (envOK fd serial w h))
      = ({ init with width := nw, height := nh, shm_fd := (fd : Int),
                     configure_serial := serial, configured := true,
                     frame_callback_pending := true, liveCallbacks := 1 },
         [OutMsg.cfgAck nw nh]) := by
    simp only [step, heq]
    rfl
  have hstep2 : step ({ init with width := nw, height := nh, shm_fd := (fd : Int),
                                  configure_serial := serial, configured := true,
                                  frame_callback_pending := true, liveCallbacks := 1 }) Ev.cbDone
      = ({ init with width := nw, height := nh, shm_fd := (fd : Int),
                     configure_serial := serial, configured := true,
                     frame_callback_pending := false, liveCallbacks := 0 },
         [OutMsg.frameDone 0]) := by
    simp only [step, frame_callback_done]
    rfl
  obtain ⟨ihv, ihd⟩ := pacedSegs_run qs
    ({ init with width := nw, height := nh, shm_fd := (fd : Int),
                 configure_serial := serial, configured := true,
                 frame_callback_pending := false, liveCallbacks := 0 }) rfl rfl rfl rfl
  refine ⟨?_, ?_, ?_⟩
  · simp only [pacedTrace, validB, hstep1, hstep2, evValidB]
    simp [ihv]
    exact ⟨⟨rfl, rfl⟩, rfl⟩
  · simp only [pacedTrace, readySeqs, List.filterMap_cons]
    simpa [readySeqs] using readySeqs_pacedSegs qs
  · simp only [pacedTrace, run, hstep1, hstep2]
    simp only [doneSeqs, List.filterMap_append, List.filterMap_cons] at ihd ⊢
    simpa using ihd

/-- C2 counterexample: after a cold start, the client sends FRAME_READY(1)
and FRAME_READY(2) in succession without waiting; the single outstanding
callback then fires once.  The helper emits exactly ONE FRAME_DONE, with
sequence number 2 — sequence 1 is never acknowledged — and no callback
remains live, so nothing further can be emitted without new client input.
This refutes "exactly n FRAME_DONE messages ... both are eventually
acknowledged in order". -/
theorem frame_ready_coalesced_counterexample :
    validB init [Ev.clientConfigure cfg0 env0, Ev.clientFrameReady 1,
      Ev.clientFrameReady 2, Ev.cbDone] = true
  ∧ readySeqs [Ev.clientConfigure cfg0 env0, Ev.clientFrameReady 1,
      Ev.clientFrameReady 2, Ev.cbDone] = [1, 2]
  ∧ doneSeqs (run init [Ev.clientConfigure cfg0 env0, Ev.clientFrameReady 1,
      Ev.clientFrameReady 2, Ev.cbDone]).2 = [2]
  ∧ (run init [Ev.clientConfigure cfg0 env0, Ev.clientFrameReady 1,
      Ev.clientFrameReady 2, Ev.cbDone]).1.liveCallbacks = 0 := by
  decide

/-! ## C3 -/

theorem hcm_callback_fields (s : HState) (cfg : ConfigFixed) (env : ConfigEnv)
    (hc : s.configured = false) :
    ((handle_configure_msg s cfg env).1.liveCallbacks = s.liveCallbacks + 1
      ∧ (handle_configure_msg s cfg env).1.frame_callback_pending = true
      ∧ (handle_configure_msg s cfg env).1.configured = true
      ∧ (handle_configure_msg s cfg env).1.resize_pending = s.resize_pending)
  ∨ ((handle_configure_msg s cfg env).1.liveCallbacks = s.liveCallbacks
      ∧ (handle_configure_msg s cfg env).1.frame_callback_pending = s.frame_callback_pending
      ∧ (handle_configure_msg s cfg env).1.resize_pending = s.resize_pending) := by
  rcases env with ⟨openR, sOk, lsOk, rt, setOk⟩
  rcases rt with _ | ⟨serial, w, hh⟩ <;>
    simp only [handle_configure_msg, layer_surface_configure, configure_new_dims,
               register_frame_callback] <;>
    split_ifs <;>
    simp_all

theorem step_cc_fields (s : HState) (cfg : ConfigFixed) (env : ConfigEnv) :
    (step s (Ev.clientConfigure cfg env)).1.liveCallbacks
        = (handle_configure_msg s cfg env).1.liveCallbacks
  ∧ (step s (Ev.clientConfigure cfg env)).1.frame_callback_pending
        = (handle_configure_msg s cfg env).1.frame_callback_pending
  ∧ (step s (Ev.clientConfigure cfg env)).1.configured
        = (handle_configure_msg s cfg env).1.configured
  ∧ (step s (Ev.clientConfigure cfg env)).1.resize_pending
        = (handle_configure_msg s cfg env).1.resize_pending := by
  simp only [step]
  split_ifs <;> exact ⟨rfl, rfl, rfl, rfl⟩

theorem cbInv_step (s : HState) (ev : Ev) (hI : cbInv s) (hv : evValidB s ev = true)
    (hr : ∀ ok, ev = Ev.loopResize ok → s.resize_pending = true → s.liveCallbacks = 0) :
    cbInv (step s ev).1 := by
  obtain ⟨h0, h1, h2⟩ := hI
  cases ev with
  | clientConfigure cfg env =>
      have hc : s.configured = false := by
        simp only [evValidB, Bool.and_eq_true, Bool.not_eq_true'] at hv
        exact hv.2
      obtain ⟨hl0, hp0, hr0⟩ := h0 hc
      obtain ⟨e1, e2, e3, e4⟩ := step_cc_fields s cfg env
      rcases hcm_callback_fields s cfg env hc with ⟨ha1, ha2, ha3, ha4⟩ | ⟨hb1, hb2, hb3⟩
      · refine ⟨?_, ?_, ?_⟩
        · intro hcf
          rw [e3, ha3] at hcf
          cases hcf
        · rw [e1, ha1, hl0]
        · rw [e2, ha2, e1, ha1, hl0]
          simp
      · refine ⟨?_, ?_, ?_⟩
        · intro hcf
          rw [e1, hb1, e2, hb2, e4, hb3]
          exact ⟨hl0, hp0, hr0⟩
        · rw [e1, hb1]
          exact h1
        · rw [e2, hb2, e1, hb1]
          exact h2
  | clientFrameReady q =>
      have hc : s.configured = true := by
        simp only [evValidB, Bool.and_eq_true] at hv
        exact hv.2
      by_cases hp : s.frame_callback_pending = true
      · have hstep : (step s (Ev.clientFrameReady q)).1 = { s with frame_seq := q } := by
          simp [step, handle_frame_ready, hp]
        rw [hstep]
        exact ⟨h0, h1, h2⟩
      · have hp' : s.frame_callback_pending = false := by
          simpa using hp
        have hl0 : s.liveCallbacks = 0 := by
          rcases Nat.lt_or_ge s.liveCallbacks 1 with hlt | hge
          · omega
          · exfalso
            have he1 : s.liveCallbacks = 1 := le_antisymm h1 hge
            have := h2.mpr he1
            rw [hp'] at this
            exact absurd this (by simp)
        have hstep : (step s (Ev.clientFrameReady q)).1
            = { s with frame_seq := q, frame_callback_pending := true,
                       liveCallbacks := s.liveCallbacks + 1 } := by
          simp [step, handle_frame_ready, register_frame_callback, hp']
        rw [hstep]
        refine ⟨?_, ?_, ?_⟩
        · intro hcf
          have hx : s.configured = false := hcf
          rw [hc] at hx
          exact absurd hx (by decide)
        · show s.liveCallbacks + 1 ≤ 1
          omega
        · show true = true ↔ s.liveCallbacks + 1 = 1
          simp [hl0]
  | compConfigure serial w hh =>
      have hc : s.configured = true := by
        simp only [evValidB, Bool.and_eq_true] at hv
        exact hv.2
      have hc' : ¬ (s.configured = false) := by
        simp [hc]
      simp only [step, layer_surface_configure]
      rw [if_neg hc']
      split_ifs with hd
      · exact ⟨fun hcf => absurd (show s.configured = false from hcf) hc', h1, h2⟩
      · exact ⟨h0, h1, h2⟩
  | cbDone =>
      have hl : 0 < s.liveCallbacks := by
        simp only [evValidB, Bool.and_eq_true, decide_eq_true_eq] at hv
        exact hv.2
      have hl1 : s.liveCallbacks = 1 := le_antisymm h1 hl
      simp only [step, frame_callback_done]
      refine ⟨?_, ?_, ?_⟩
      · intro hcf
        obtain ⟨a, b, c⟩ := h0 hcf
        exact absurd a (by omega)
      · show s.liveCallbacks - 1 ≤ 1
        omega
      · show false = true ↔ s.liveCallbacks - 1 = 1
        rw [hl1]
        simp
  | loopResize ok =>
      by_cases hrp : s.resize_pending = true
      · have hl0 : s.liveCallbacks = 0 := hr ok rfl hrp
        have hp0 : s.frame_callback_pending = false := by
          by_contra hcon
          have hp1 : s.frame_callback_pending = true := by
            simpa using hcon
          have := h2.mp hp1
          omega
        simp only [step, apply_resize]
        rw [if_neg (by simp [hrp])]
        split_ifs with hok
        · exact ⟨fun _ => ⟨hl0, hp0, rfl⟩, h1, by simp [hp0, hl0]⟩
        · simp only [register_frame_callback]
          refine ⟨?_, ?_, ?_⟩
          · intro hcf
            exact absurd (h0 hcf).2.2 (by simp [hrp])
          · show s.liveCallbacks + 1 ≤ 1
            omega
          · simp [hl0]
      · have hrp' : s.resize_pending = false := by
          simpa using hrp
        have hstep : (step s (Ev.loopResize ok)).1 = s := by
          simp [step, apply_resize, hrp']
        rw [hstep]
        exact ⟨h0, h1, h2⟩

theorem cbInv_run (evs : List Ev) : ∀ s : HState, cbInv s →
    validB s evs = true → resizeSafeB s evs = true → cbInv (run s evs).1 := by
  induction evs with
  | nil => intro s hI _ _; exact hI
  | cons ev evs ih =>
      intro s hI hv hr
      have hv' : evValidB s ev = true ∧ validB (step s ev).1 evs = true := by
        simpa [validB, Bool.and_eq_true] using hv
      have hr' : resizeSafeB (step s ev).1 evs = true := by
        simp only [resizeSafeB, Bool.and_eq_true] at hr
        exact hr.2
      have hside : ∀ ok, ev = Ev.loopResize ok → s.resize_pending = true →
          s.liveCallbacks = 0 := by
        intro ok hev hrp
        subst hev
        simp only [resizeSafeB, Bool.and_eq_true] at hr
        have hone := hr.1
        rw [hrp] at hone
        simpa using hone
      exact ih _ (cbInv_step s ev hI hv'.1 hside) hv'.2 hr'

/-- C3 amended (provable part): in every run in which resizes are applied
only at quiescent moments — no `apply_resize` fires while a frame callback
is still outstanding — at most one frame callback object is live in the
final state.  (Without that restriction the claim is false, see the
counterexample: `apply_resize` registers a callback unconditionally.) -/
theorem at_most_one_callback_when_resize_applied_idle (evs : List Ev)
    (hv : validB init evs = true) (hr : resizeSafeB init evs = true) :
    (run init evs).1.liveCallbacks ≤ 1 :=
  (cbInv_run evs init (by exact ⟨fun _ => ⟨rfl, rfl, rfl⟩, by decide, by decide⟩)
    hv hr).2.1

/-- C3 counterexample: the compositor delivers a resize configure while the
configure-time frame callback is still outstanding; the next loop turn
applies the resize and registers a second callback — two live
frame-callback registrations exist at the same moment. -/
theorem two_live_callbacks_counterexample :
    validB init [Ev.clientConfigure cfg0 env0, Ev.compConfigure 7 1024 600,
      Ev.loopResize true] = true
  ∧ (run init [Ev.clientConfigure cfg0 env0, Ev.compConfigure 7 1024 600,
      Ev.loopResize true]).1.liveCallbacks = 2 := by
  decide

/-- Witness for the amended C3 statement: a session with a resize applied
after the callback has fired keeps at most one callback live. -/
theorem at_most_one_callback_witness :
    (run init [Ev.clientConfigure cfg0 env0, Ev.compConfigure 7 1024 600,
      Ev.cbDone, Ev.loopResize true]).1.liveCallbacks ≤ 1 :=
  at_most_one_callback_when_resize_applied_idle
    [Ev.clientConfigure cfg0 env0, Ev.compConfigure 7 1024 600, Ev.cbDone,
      Ev.loopResize true]
    (by decide) (by decide)

end WaylandHelper
